import Mathlib

/-!
# MTAS (Multi Tenant Alert Service): shallow embedding and verification

Embedding of the role-based directory and SMS-routing core of the `mtas`
TypeScript service:

* `src/models/Role.ts`, `src/models/User.ts` — data model (the `Role`
  enumeration is `SUBSCRIBER`, `STAFF`, `SUPERVISOR`; per the design notes
  the escalation role appears as `ADMIN` in older call sites and as
  `SUPERVISOR` in the model file, and the two names denote one role, which
  we embed as `Role.SUPERVISOR`).
* `src/services/firestore.ts` — the directory store.  The Firestore users
  collection is embedded as a `List User` in store order: a filtered query
  is `List.filter`, a `limit(1)` query is `List.find?`, `add` appends, and
  a batched commit of updates/deletes over the matching documents is the
  corresponding pure transformation of the whole list (all-or-nothing).
* `src/services/twilio.ts` — outbound sends.  A send is a `(to, body)`
  pair; a function that issues sends is embedded as the list of sends it
  issues, in issue order.  The `Promise.all` join over per-recipient sends
  is embedded by `dispatch`: the gateway outcome of each send is given by
  an oracle `gw : Send → Bool`, every listed send is attempted, and the
  aggregate result is the first rejection if any send fails.
* `src/functions/handleSms.ts`, `src/functions/userManagement.ts`,
  `src/functions/userManagementApi.ts` — the HTTP handlers, embedded as
  functions from the directory state and request data to a result code,
  the issued sends, and the resulting directory state.
-/

namespace Mtas

/-- The `Role` enumeration from `src/models/Role.ts`:
`SUBSCRIBER`, `STAFF`, `SUPERVISOR`. -/
inductive Role where
  | SUBSCRIBER
  | STAFF
  | SUPERVISOR
deriving DecidableEq, Repr

/-- The `User` record from `src/models/User.ts`: a name, a phone number and
a list of roles. -/
structure User where
  name : String
  phoneNumber : String
  roles : List Role
deriving DecidableEq, Repr

/-- An outbound SMS: recipient phone number and message body
(`sendSms(to, body)` in `src/services/twilio.ts`). -/
abbrev Send := String × String

/-! ## Firestore service (`src/services/firestore.ts`)

The users collection is a `List User` in store order. -/

/-- `getUserByPhoneNumber`: query `where phoneNumber == p`, `limit(1)`,
first document or `null`. -/
def getUserByPhoneNumber (db : List User) (phoneNumber : String) : Option User :=
  db.find? (fun u => u.phoneNumber == phoneNumber)

/-- `addUser`: unconditionally add a new document to the collection. -/
def addUser (db : List User) (name phoneNumber : String) (roles : List Role) : List User :=
  db ++ [{ name := name, phoneNumber := phoneNumber, roles := roles }]

/-- `removeUser`: query all documents matching the phone number and delete
them in one batched commit. -/
def removeUser (db : List User) (phoneNumber : String) : List User :=
  db.filter (fun u => u.phoneNumber != phoneNumber)

/-- `updateUserRoles`: query all documents matching the phone number; if
none match, throw `No user found with phone number …`; otherwise replace
the role list of every matching document in one batched commit. -/
def updateUserRoles (db : List User) (phoneNumber : String) (roles : List Role) :
    Except String (List User) :=
  if (db.filter (fun u => u.phoneNumber == phoneNumber)).isEmpty then
    .error ("No user found with phone number " ++ phoneNumber)
  else
    .ok (db.map (fun u =>
      if u.phoneNumber == phoneNumber then { u with roles := roles } else u))

/-- The directory state after running `updateUserRoles`: the committed
state on success; the throw happens before any batch is committed, so the
store is untouched on failure. -/
def updateUserRolesState (db : List User) (phoneNumber : String) (roles : List Role) :
    List User :=
  match updateUserRoles db phoneNumber roles with
  | .ok db2 => db2
  | .error _ => db

/-- `listUsers`: the whole collection. -/
def listUsers (db : List User) : List User := db

/-- `listUsersByRole`: query `where roles array-contains role`. -/
def listUsersByRole (db : List User) (role : Role) : List User :=
  db.filter (fun u => u.roles.contains role)

/-! ## Twilio service (`src/services/twilio.ts`) -/

/-- The escalation text `` `Message from ${fromNumber}:\n${message}` ``. -/
def escalationText (fromNumber message : String) : String :=
  "Message from " ++ fromNumber ++ ":\n" ++ message

/-- The broadcast text `` `Broadcast from ${senderName}:\n${message}` ``. -/
def broadcastText (sName message : String) : String :=
  "Broadcast from " ++ sName ++ ":\n" ++ message

/-- The sender display name used by `broadcastMessage`:
`sender ? sender.name : fromNumber`. -/
def senderName (db : List User) (fromNumber : String) : String :=
  match getUserByPhoneNumber db fromNumber with
  | some u => u.name
  | none => fromNumber

/-- `forwardMessageToAdmins`: one send per contact holding the escalation
role (`Role.ADMIN` in `twilio.ts`, the `SUPERVISOR` member of the model's
`Role` enumeration), with the escalation text. -/
def forwardMessageToAdmins (db : List User) (fromNumber message : String) : List Send :=
  (listUsersByRole db Role.SUPERVISOR).map
    (fun admin => (admin.phoneNumber, escalationText fromNumber message))

/-- `broadcastMessage`: one send per contact holding `SUBSCRIBER`, the
sender's own phone number filtered out, with the broadcast text. -/
def broadcastMessage (db : List User) (fromNumber message : String) : List Send :=
  ((listUsersByRole db Role.SUBSCRIBER).filter
      (fun u => u.phoneNumber != fromNumber)).map
    (fun subscriber => (subscriber.phoneNumber, broadcastText (senderName db fromNumber) message))

/-! ## The `Promise.all` fan-out join

Each mapped `sendSms` promise is started independently; the join waits for
all of them.  The gateway outcome of an individual send is an oracle
`gw : Send → Bool`. -/

/-- The outcome of one `sendSms` call under gateway oracle `gw`: resolves,
or rejects carrying the failed recipient. -/
def sendOutcome (gw : Send → Bool) (s : Send) : Except String Unit :=
  if gw s then .ok () else .error s.1

/-- `Promise.all` over a list of settled outcomes: resolves when all
resolve, otherwise rejects with the first rejection. -/
def promiseAll : List (Except String Unit) → Except String Unit
  | [] => .ok ()
  | .ok () :: rest => promiseAll rest
  | .error e :: _ => .error e

/-- The fan-out dispatcher: every send in the list is attempted (the
promises all start before the join), and the aggregate result is the
`promiseAll` join of the individual outcomes.  Returns the attempted sends
and the aggregate result. -/
def dispatch (gw : Send → Bool) (sends : List Send) :
    List Send × Except String Unit :=
  (sends, promiseAll (sends.map (sendOutcome gw)))

/-- The sends actually delivered by the gateway: those whose individual
send succeeded.  A rejection of the join does not undo them. -/
def delivered (gw : Send → Bool) (sends : List Send) : List Send :=
  sends.filter gw

/-! ## handleSms (`src/functions/handleSms.ts`) -/

/-- Confirmation text sent to a recognized sender whose message was
escalated. -/
def forwardedConfirmation : String :=
  "Your message has been forwarded to the administrators."

/-- Confirmation text sent to a trusted sender whose message was
broadcast. -/
def broadcastConfirmation : String :=
  "Your message has been broadcast to all subscribers."

/-- The first branch condition of `handleSmsFunction` on a found user:
`roles.includes(SUBSCRIBER) && !roles.includes(STAFF) &&
!roles.includes(SUPERVISOR)`. -/
def subscriberOnlyRoles (u : User) : Bool :=
  u.roles.contains Role.SUBSCRIBER
    && !u.roles.contains Role.STAFF
    && !u.roles.contains Role.SUPERVISOR

/-- The second branch condition of `handleSmsFunction`:
`roles.includes(STAFF) || roles.includes(SUPERVISOR)`. -/
def trustedRoles (u : User) : Bool :=
  u.roles.contains Role.STAFF || u.roles.contains Role.SUPERVISOR

/-- The routing classes of the design: `UNTRUSTED` (sender unrecognized),
`SUBSCRIBER_ONLY` (recognized, subscriber-only role set),
`TRUSTED_ORIGINATOR` (recognized, holds `STAFF` or the escalation role),
and `NO_ACTION` for a recognized sender matching neither branch condition
of `handleSmsFunction`. -/
inductive RoutingOutcome where
  | UNTRUSTED
  | SUBSCRIBER_ONLY
  | TRUSTED_ORIGINATOR
  | NO_ACTION
deriving DecidableEq, Repr

/-- The branch of `handleSmsFunction` taken for a given directory and
sender, mirroring the `if`/`else if` chain on the looked-up user. -/
def route (db : List User) (frm : String) : RoutingOutcome :=
  match getUserByPhoneNumber db frm with
  | none => .UNTRUSTED
  | some user =>
      if subscriberOnlyRoles user then .SUBSCRIBER_ONLY
      else if trustedRoles user then .TRUSTED_ORIGINATOR
      else .NO_ACTION

/-- `handleSmsFunction`: the list of outbound sends issued for an inbound
webhook with sender `frm` and body `body`.  Missing parameters (`!from ||
!body`, JavaScript falsiness of the empty string) answer 400 with no
sends.  Otherwise: if the sender is unrecognized, escalate with no
confirmation; if recognized with a subscriber-only role set, escalate and
confirm; if the role set holds `STAFF` or the escalation role, broadcast
and confirm; otherwise neither branch runs and nothing is sent. -/
def handleSmsFunction (db : List User) (frm body : String) : List Send :=
  if frm == "" || body == "" then []
  else
    match getUserByPhoneNumber db frm with
    | none => forwardMessageToAdmins db frm body
    | some user =>
        if subscriberOnlyRoles user then
          forwardMessageToAdmins db frm body ++ [(frm, forwardedConfirmation)]
        else if trustedRoles user then
          broadcastMessage db frm body ++ [(frm, broadcastConfirmation)]
        else []

/-! ## User management handlers
(`src/functions/userManagement.ts` and the Express routes of
`src/functions/userManagementApi.ts`; the two files implement the same
logic for each operation, so each is embedded once). -/

/-- Result of the delete handler (`deleteUserFunction` /
`DELETE /users/:phoneNumber`). -/
inductive DeleteResult where
  | badRequest
  | notFound
  | deleted
deriving DecidableEq, Repr

/-- `deleteUserFunction`: reject a missing phone parameter with 400,
answer 404 `User not found` when `getUserByPhoneNumber` finds no user,
otherwise `removeUser` and answer 200. -/
def deleteUserFunction (db : List User) (phoneNumber : String) :
    DeleteResult × List User :=
  if phoneNumber == "" then (.badRequest, db)
  else
    match getUserByPhoneNumber db phoneNumber with
    | none => (.notFound, db)
    | some _ => (.deleted, removeUser db phoneNumber)

/-- Results of the add/update handlers. -/
inductive ApiResult where
  | badRequest (msg : String)
  | conflict
  | notFound
  | created
  | updated
deriving DecidableEq, Repr

/-- `Object.values(Role)` for the model's `Role` enumeration: the role
tokens accepted by the mutation request validators. -/
def roleValues : List String := ["SUBSCRIBER", "STAFF", "SUPERVISOR"]

/-- The `Role` member denoted by a valid role token. -/
def parseRoleToken (s : String) : Option Role :=
  if s == "SUBSCRIBER" then some Role.SUBSCRIBER
  else if s == "STAFF" then some Role.STAFF
  else if s == "SUPERVISOR" then some Role.SUPERVISOR
  else none

/-- `addUserFunction` / `POST /users`: reject missing fields with 400
(JavaScript falsiness: an empty name or phone string; an empty roles
*array* is truthy and passes), reject the first role token not in
`Object.values(Role)` with 400 `Invalid role`, answer 409 when a user with
the phone number already exists, otherwise `addUser` and answer 201. -/
def addUserFunction (db : List User) (nm phoneNumber : String)
    (roleTokens : List String) : ApiResult × List User :=
  if nm == "" || phoneNumber == "" then
    (.badRequest "Name, phone number, and roles are required", db)
  else
    match roleTokens.find? (fun r => !roleValues.contains r) with
    | some r => (.badRequest ("Invalid role: " ++ r), db)
    | none =>
        match getUserByPhoneNumber db phoneNumber with
        | some _ => (.conflict, db)
        | none => (.created, addUser db nm phoneNumber (roleTokens.filterMap parseRoleToken))

/-- `updateUserFunction` / `PUT /users/:phoneNumber`: reject a missing
phone parameter with 400, reject the first unrecognized role token with
400 `Invalid role`, map the `No user found` throw of `updateUserRoles` to
404, otherwise commit and answer 200. -/
def updateUserFunction (db : List User) (phoneNumber : String)
    (roleTokens : List String) : ApiResult × List User :=
  if phoneNumber == "" then (.badRequest "Phone number is required", db)
  else
    match roleTokens.find? (fun r => !roleValues.contains r) with
    | some r => (.badRequest ("Invalid role: " ++ r), db)
    | none =>
        match updateUserRoles db phoneNumber (roleTokens.filterMap parseRoleToken) with
        | .error _ => (.notFound, db)
        | .ok db2 => (.updated, db2)

/-! ## Basic lemmas about the store queries -/

theorem mem_listUsersByRole {db : List User} {r : Role} {u : User} :
    u ∈ listUsersByRole db r ↔ u ∈ db ∧ r ∈ u.roles := by
  simp [listUsersByRole, List.mem_filter, List.elem_iff]

theorem getUserByPhoneNumber_eq_none_iff {db : List User} {p : String} :
    getUserByPhoneNumber db p = none ↔ ∀ u ∈ db, u.phoneNumber ≠ p := by
  simp [getUserByPhoneNumber, List.find?_eq_none]

theorem getUserByPhoneNumber_mem {db : List User} {p : String} {u : User}
    (h : getUserByPhoneNumber db p = some u) : u ∈ db :=
  List.mem_of_find?_eq_some h

theorem getUserByPhoneNumber_phone {db : List User} {p : String} {u : User}
    (h : getUserByPhoneNumber db p = some u) : u.phoneNumber = p := by
  have := List.find?_some h
  simpa using this

theorem mem_forwardMessageToAdmins {db : List User} {frm body : String} {s : Send} :
    s ∈ forwardMessageToAdmins db frm body ↔
      ∃ c ∈ db, Role.SUPERVISOR ∈ c.roles ∧ s = (c.phoneNumber, escalationText frm body) := by
  simp only [forwardMessageToAdmins, List.mem_map]
  constructor
  · rintro ⟨c, hc, rfl⟩
    rcases mem_listUsersByRole.mp hc with ⟨hmem, hrole⟩
    exact ⟨c, hmem, hrole, rfl⟩
  · rintro ⟨c, hmem, hrole, rfl⟩
    exact ⟨c, mem_listUsersByRole.mpr ⟨hmem, hrole⟩, rfl⟩

theorem mem_broadcastMessage {db : List User} {frm body : String} {s : Send} :
    s ∈ broadcastMessage db frm body ↔
      ∃ c ∈ db, Role.SUBSCRIBER ∈ c.roles ∧ c.phoneNumber ≠ frm ∧
        s = (c.phoneNumber, broadcastText (senderName db frm) body) := by
  simp only [broadcastMessage, List.mem_map, List.mem_filter]
  constructor
  · rintro ⟨c, ⟨hc, hne⟩, rfl⟩
    rcases mem_listUsersByRole.mp hc with ⟨hmem, hrole⟩
    refine ⟨c, hmem, hrole, ?_, rfl⟩
    simpa using hne
  · rintro ⟨c, hmem, hrole, hne, rfl⟩
    refine ⟨c, ⟨mem_listUsersByRole.mpr ⟨hmem, hrole⟩, ?_⟩, rfl⟩
    simpa using hne

theorem subscriberOnlyRoles_iff {u : User} :
    subscriberOnlyRoles u = true ↔
      Role.SUBSCRIBER ∈ u.roles ∧ Role.STAFF ∉ u.roles ∧ Role.SUPERVISOR ∉ u.roles := by
  simp [subscriberOnlyRoles, List.elem_iff, and_assoc]

theorem trustedRoles_iff {u : User} :
    trustedRoles u = true ↔ Role.STAFF ∈ u.roles ∨ Role.SUPERVISOR ∈ u.roles := by
  simp [trustedRoles, List.elem_iff]

theorem subscriberOnlyRoles_eq_false_of_trusted {u : User}
    (h : Role.STAFF ∈ u.roles ∨ Role.SUPERVISOR ∈ u.roles) :
    subscriberOnlyRoles u = false := by
  rcases h with h | h <;>
    simp [subscriberOnlyRoles, List.elem_iff, h]

/-! ## Claim C1: unrecognized sender -/

/-- **C1.** For every inbound message whose sender phone number matches no
contact in the directory, `handleSmsFunction` escalates the message body to
every contact whose role set contains the admin/supervisor escalation role,
and sends no SMS (in particular no confirmation) back to the sender. -/
theorem c1_handleSms_untrusted_escalates
    (db : List User) (frm body : String)
    (hfrm : frm ≠ "") (hbody : body ≠ "")
    (h : getUserByPhoneNumber db frm = none) :
    handleSmsFunction db frm body = forwardMessageToAdmins db frm body
    ∧ (∀ c ∈ db, Role.SUPERVISOR ∈ c.roles →
        (c.phoneNumber, escalationText frm body) ∈ handleSmsFunction db frm body)
    ∧ (∀ s ∈ handleSmsFunction db frm body, s.1 ≠ frm) := by
  have heq : handleSmsFunction db frm body = forwardMessageToAdmins db frm body := by
    simp [handleSmsFunction, h, hfrm, hbody]
  refine ⟨heq, ?_, ?_⟩
  · intro c hc hrole
    rw [heq, mem_forwardMessageToAdmins]
    exact ⟨c, hc, hrole, rfl⟩
  · intro s hs
    rw [heq, mem_forwardMessageToAdmins] at hs
    rcases hs with ⟨c, hmem, _, rfl⟩
    exact getUserByPhoneNumber_eq_none_iff.mp h c hmem

/-- Witness for C1, on the spec's scenario directory with sender `+1X`
unknown: the escalation goes to the lone admin and nothing is sent back to
`+1X`. -/
theorem c1_witness :
    handleSmsFunction
        [⟨"Alice", "+1A", [Role.SUPERVISOR]⟩, ⟨"Bob", "+1B", [Role.SUBSCRIBER]⟩,
          ⟨"Carol", "+1C", [Role.STAFF]⟩] "+1X" "spam"
      = forwardMessageToAdmins
          [⟨"Alice", "+1A", [Role.SUPERVISOR]⟩, ⟨"Bob", "+1B", [Role.SUBSCRIBER]⟩,
            ⟨"Carol", "+1C", [Role.STAFF]⟩] "+1X" "spam" :=
  (c1_handleSms_untrusted_escalates _ "+1X" "spam"
    (by decide) (by decide) (by decide)).1

/-! ## Claim C2: trusted originator -/

/-- **C2 fails as stated**: quantifying over every directory record `C`
holding `STAFF` ignores that `handleSmsFunction` resolves the sender by a
first-match lookup.  Here the record `Staff:+1:[STAFF]` holds `STAFF` and
`Other:+2` holds `SUBSCRIBER` with a different phone number, yet the
inbound message from `+1` resolves to the earlier record `Sub:+1` (a
subscriber-only record), so no broadcast send ever reaches `+2`. -/
theorem c2_counterexample :
    (⟨"Staff", "+1", [Role.STAFF]⟩ : User) ∈
        ([⟨"Sub", "+1", [Role.SUBSCRIBER]⟩, ⟨"Staff", "+1", [Role.STAFF]⟩,
          ⟨"Other", "+2", [Role.SUBSCRIBER]⟩] : List User)
    ∧ Role.STAFF ∈ (⟨"Staff", "+1", [Role.STAFF]⟩ : User).roles
    ∧ Role.SUBSCRIBER ∈ (⟨"Other", "+2", [Role.SUBSCRIBER]⟩ : User).roles
    ∧ ("+2" : String) ≠ "+1"
    ∧ ∀ s ∈ handleSmsFunction
        [⟨"Sub", "+1", [Role.SUBSCRIBER]⟩, ⟨"Staff", "+1", [Role.STAFF]⟩,
          ⟨"Other", "+2", [Role.SUBSCRIBER]⟩] "+1" "alert",
        s.1 ≠ "+2" := by decide

/-- **C2 (amended).** For every sender whose phone number *resolves by the
first-match lookup* to a record holding `STAFF` or the escalation role,
`handleSmsFunction` broadcasts to every contact whose role set contains
`SUBSCRIBER` except contacts whose phone number equals the sender's, and
sends exactly one SMS to the sender's phone: the broadcast confirmation. -/
theorem c2_handleSms_trusted_broadcasts
    (db : List User) (u : User) (frm body : String)
    (hfrm : frm ≠ "") (hbody : body ≠ "")
    (hu : getUserByPhoneNumber db frm = some u)
    (ht : Role.STAFF ∈ u.roles ∨ Role.SUPERVISOR ∈ u.roles) :
    handleSmsFunction db frm body
        = broadcastMessage db frm body ++ [(frm, broadcastConfirmation)]
    ∧ (∀ c ∈ db, Role.SUBSCRIBER ∈ c.roles → c.phoneNumber ≠ frm →
        (c.phoneNumber, broadcastText (senderName db frm) body)
          ∈ handleSmsFunction db frm body)
    ∧ (handleSmsFunction db frm body).filter (fun s => s.1 == frm)
        = [(frm, broadcastConfirmation)] := by
  have hsub : subscriberOnlyRoles u = false := subscriberOnlyRoles_eq_false_of_trusted ht
  have htr : trustedRoles u = true := trustedRoles_iff.mpr ht
  have heq : handleSmsFunction db frm body
      = broadcastMessage db frm body ++ [(frm, broadcastConfirmation)] := by
    simp [handleSmsFunction, hu, hfrm, hbody, hsub, htr]
  refine ⟨heq, ?_, ?_⟩
  · intro c hc hrole hne
    rw [heq]
    exact List.mem_append_left _ (mem_broadcastMessage.mpr ⟨c, hc, hrole, hne, rfl⟩)
  · rw [heq, List.filter_append]
    have h1 : (broadcastMessage db frm body).filter (fun s => s.1 == frm) = [] := by
      rw [List.filter_eq_nil_iff]
      intro s hs
      rcases mem_broadcastMessage.mp hs with ⟨c, _, _, hne, rfl⟩
      simpa using hne
    rw [h1]
    simp

/-- Witness for the amended C2, on the spec's scenario directory with
sender `+1C` (Carol, `STAFF`). -/
theorem c2_witness :
    handleSmsFunction
        [⟨"Alice", "+1A", [Role.SUPERVISOR]⟩, ⟨"Bob", "+1B", [Role.SUBSCRIBER]⟩,
          ⟨"Carol", "+1C", [Role.STAFF]⟩] "+1C" "fire drill"
      = broadcastMessage
          [⟨"Alice", "+1A", [Role.SUPERVISOR]⟩, ⟨"Bob", "+1B", [Role.SUBSCRIBER]⟩,
            ⟨"Carol", "+1C", [Role.STAFF]⟩] "+1C" "fire drill"
          ++ [("+1C", broadcastConfirmation)] :=
  (c2_handleSms_trusted_broadcasts _ ⟨"Carol", "+1C", [Role.STAFF]⟩ "+1C" "fire drill"
    (by decide) (by decide) (by decide) (by decide)).1

/-! ## Claim C3: subscriber-only sender -/

/-- **C3 fails as stated**: the claim says the escalation reaches no
`SUBSCRIBER` contact, but `forwardMessageToAdmins` sends to every contact
holding the escalation role, including one that *also* holds `SUBSCRIBER`.
Here `A:+1A` holds both `SUPERVISOR` and `SUBSCRIBER` and receives the
escalation of the subscriber-only sender `+1C`. -/
theorem c3_counterexample :
    (⟨"A", "+1A", [Role.SUPERVISOR, Role.SUBSCRIBER]⟩ : User) ∈
        ([⟨"A", "+1A", [Role.SUPERVISOR, Role.SUBSCRIBER]⟩,
          ⟨"C", "+1C", [Role.SUBSCRIBER]⟩] : List User)
    ∧ Role.SUBSCRIBER ∈ (⟨"A", "+1A", [Role.SUPERVISOR, Role.SUBSCRIBER]⟩ : User).roles
    ∧ (⟨"C", "+1C", [Role.SUBSCRIBER]⟩ : User).roles = [Role.SUBSCRIBER]
    ∧ ("+1A", escalationText "+1C" "help") ∈
        handleSmsFunction
          [⟨"A", "+1A", [Role.SUPERVISOR, Role.SUBSCRIBER]⟩,
            ⟨"C", "+1C", [Role.SUBSCRIBER]⟩] "+1C" "help" := by decide

/-- **C3 (amended).** For every sender whose phone number resolves by the
first-match lookup to a record whose role set contains `SUBSCRIBER` and
neither `STAFF` nor the escalation role, `handleSmsFunction` escalates the
message to every contact holding the escalation role and *only* to
contacts holding the escalation role (a contact holding both `SUBSCRIBER`
and the escalation role does receive it), then sends the sender the
forwarded-confirmation SMS. -/
theorem c3_handleSms_subscriberOnly_escalates
    (db : List User) (u : User) (frm body : String)
    (hfrm : frm ≠ "") (hbody : body ≠ "")
    (hu : getUserByPhoneNumber db frm = some u)
    (hs : Role.SUBSCRIBER ∈ u.roles) (hns : Role.STAFF ∉ u.roles)
    (hnv : Role.SUPERVISOR ∉ u.roles) :
    handleSmsFunction db frm body
        = forwardMessageToAdmins db frm body ++ [(frm, forwardedConfirmation)]
    ∧ (∀ c ∈ db, Role.SUPERVISOR ∈ c.roles →
        (c.phoneNumber, escalationText frm body) ∈ forwardMessageToAdmins db frm body)
    ∧ (∀ s ∈ forwardMessageToAdmins db frm body,
        ∃ c ∈ db, Role.SUPERVISOR ∈ c.roles ∧ s.1 = c.phoneNumber)
    ∧ (frm, forwardedConfirmation) ∈ handleSmsFunction db frm body := by
  have hso : subscriberOnlyRoles u = true :=
    subscriberOnlyRoles_iff.mpr ⟨hs, hns, hnv⟩
  have heq : handleSmsFunction db frm body
      = forwardMessageToAdmins db frm body ++ [(frm, forwardedConfirmation)] := by
    simp [handleSmsFunction, hu, hfrm, hbody, hso]
  refine ⟨heq, ?_, ?_, ?_⟩
  · intro c hc hrole
    exact mem_forwardMessageToAdmins.mpr ⟨c, hc, hrole, rfl⟩
  · intro s hsend
    rcases mem_forwardMessageToAdmins.mp hsend with ⟨c, hmem, hrole, rfl⟩
    exact ⟨c, hmem, hrole, rfl⟩
  · rw [heq]
    exact List.mem_append_right _ (List.mem_singleton.mpr rfl)

/-- Witness for the amended C3, on the spec's scenario directory with
sender `+1B` (Bob, subscriber-only). -/
theorem c3_witness :
    handleSmsFunction
        [⟨"Alice", "+1A", [Role.SUPERVISOR]⟩, ⟨"Bob", "+1B", [Role.SUBSCRIBER]⟩,
          ⟨"Carol", "+1C", [Role.STAFF]⟩] "+1B" "help"
      = forwardMessageToAdmins
          [⟨"Alice", "+1A", [Role.SUPERVISOR]⟩, ⟨"Bob", "+1B", [Role.SUBSCRIBER]⟩,
            ⟨"Carol", "+1C", [Role.STAFF]⟩] "+1B" "help"
          ++ [("+1B", forwardedConfirmation)] :=
  (c3_handleSms_subscriberOnly_escalates _ ⟨"Bob", "+1B", [Role.SUBSCRIBER]⟩ "+1B" "help"
    (by decide) (by decide) (by decide) (by decide) (by decide) (by decide)).1

/-! ## Claim C4: exhaustiveness of the three routing classes -/

/-- Every `Role` is one of the three enumeration members. -/
theorem role_cases (r : Role) :
    r = Role.SUBSCRIBER ∨ r = Role.STAFF ∨ r = Role.SUPERVISOR := by
  cases r <;> simp

/-- **C4 fails as stated**: a recognized contact whose stored role set is
empty matches neither branch of `handleSmsFunction`: no escalation and no
broadcast is performed even though an admin is present to receive an
escalation. -/
theorem c4_counterexample :
    route [⟨"E", "+1", ([] : List Role)⟩, ⟨"A", "+1A", [Role.SUPERVISOR]⟩] "+1"
        = RoutingOutcome.NO_ACTION
    ∧ handleSmsFunction
        [⟨"E", "+1", ([] : List Role)⟩, ⟨"A", "+1A", [Role.SUPERVISOR]⟩] "+1" "hello"
        = []
    ∧ Role.SUPERVISOR ∈ (⟨"A", "+1A", [Role.SUPERVISOR]⟩ : User).roles := by decide

/-- **C4 (amended).** Provided the sender is unrecognized or resolves to a
record with a non-empty role set, the routing is total over the three
classes: the sender maps to exactly one of `UNTRUSTED`, `SUBSCRIBER_ONLY`,
`TRUSTED_ORIGINATOR` (the disjuncts below are mutually exclusive since
`route` is a function) and `handleSmsFunction` performs the one matching
action.  A recognized contact with an empty role set instead falls through
both branches and triggers neither escalation nor broadcast. -/
theorem c4_route_total
    (db : List User) (frm body : String)
    (hfrm : frm ≠ "") (hbody : body ≠ "")
    (hroles : ∀ u, getUserByPhoneNumber db frm = some u → u.roles ≠ []) :
    route db frm ≠ RoutingOutcome.NO_ACTION
    ∧ ((route db frm = RoutingOutcome.UNTRUSTED
          ∧ handleSmsFunction db frm body = forwardMessageToAdmins db frm body)
      ∨ (route db frm = RoutingOutcome.SUBSCRIBER_ONLY
          ∧ handleSmsFunction db frm body
              = forwardMessageToAdmins db frm body ++ [(frm, forwardedConfirmation)])
      ∨ (route db frm = RoutingOutcome.TRUSTED_ORIGINATOR
          ∧ handleSmsFunction db frm body
              = broadcastMessage db frm body ++ [(frm, broadcastConfirmation)])) := by
  cases hlook : getUserByPhoneNumber db frm with
  | none =>
      refine ⟨?_, Or.inl ⟨?_, ?_⟩⟩
      · simp [route, hlook]
      · simp [route, hlook]
      · simp [handleSmsFunction, hlook, hfrm, hbody]
  | some u =>
      have hne := hroles u hlook
      cases hso : subscriberOnlyRoles u with
      | true =>
          refine ⟨?_, Or.inr (Or.inl ⟨?_, ?_⟩)⟩
          · simp [route, hlook, hso]
          · simp [route, hlook, hso]
          · simp [handleSmsFunction, hlook, hfrm, hbody, hso]
      | false =>
          cases htr : trustedRoles u with
          | true =>
              refine ⟨?_, Or.inr (Or.inr ⟨?_, ?_⟩)⟩
              · simp [route, hlook, hso, htr]
              · simp [route, hlook, hso, htr]
              · simp [handleSmsFunction, hlook, hfrm, hbody, hso, htr]
          | false =>
              exfalso
              simp only [trustedRoles, Bool.or_eq_false_iff] at htr
              have hstaff : Role.STAFF ∉ u.roles := by
                simpa [List.elem_iff] using htr.1
              have hsup : Role.SUPERVISOR ∉ u.roles := by
                simpa [List.elem_iff] using htr.2
              have hsubn : Role.SUBSCRIBER ∉ u.roles := by
                simp only [subscriberOnlyRoles, Bool.and_eq_false_iff] at hso
                rcases hso with (hso | hso) | hso
                · simpa [List.elem_iff] using hso
                · exact absurd (by simpa [List.elem_iff] using hso) hstaff
                · exact absurd (by simpa [List.elem_iff] using hso) hsup
              cases hcons : u.roles with
              | nil => exact hne hcons
              | cons r rest =>
                  have hr : r ∈ u.roles := by
                    rw [hcons]; exact List.mem_cons_self r rest
                  rcases role_cases r with rfl | rfl | rfl
                  · exact hsubn hr
                  · exact hstaff hr
                  · exact hsup hr

/-- Witness for the amended C4, on the spec's scenario directory with
sender `+1B` (recognized, non-empty role set). -/
theorem c4_witness :
    route [⟨"Alice", "+1A", [Role.SUPERVISOR]⟩, ⟨"Bob", "+1B", [Role.SUBSCRIBER]⟩,
        ⟨"Carol", "+1C", [Role.STAFF]⟩] "+1B"
      ≠ RoutingOutcome.NO_ACTION :=
  (c4_route_total _ "+1B" "help" (by decide) (by decide)
    (by
      intro u hu
      have h2 : getUserByPhoneNumber
          [⟨"Alice", "+1A", [Role.SUPERVISOR]⟩, ⟨"Bob", "+1B", [Role.SUBSCRIBER]⟩,
            ⟨"Carol", "+1C", [Role.STAFF]⟩] "+1B"
          = some ⟨"Bob", "+1B", [Role.SUBSCRIBER]⟩ := by decide
      rw [h2] at hu
      cases hu
      decide)).1

/-! ## Claim C5: fan-out partial-failure semantics -/

/-- If some send in the list fails under the gateway oracle, the
`Promise.all` join over the mapped outcomes rejects. -/
theorem promiseAll_map_error {gw : Send → Bool} {sends : List Send}
    (h : ∃ s ∈ sends, gw s = false) :
    ∃ e, promiseAll (sends.map (sendOutcome gw)) = .error e := by
  induction sends with
  | nil =>
      rcases h with ⟨s, hs, _⟩
      cases hs
  | cons a rest ih =>
      cases hga : gw a with
      | false =>
          exact ⟨a.1, by simp [promiseAll, sendOutcome, hga]⟩
      | true =>
          rcases h with ⟨s, hs, hgs⟩
          rcases List.mem_cons.mp hs with rfl | hs2
          · rw [hga] at hgs; cases hgs
          · rcases ih ⟨s, hs2, hgs⟩ with ⟨e, he⟩
            exact ⟨e, by simp [promiseAll, sendOutcome, hga, he]⟩

/-- **C5.** For every send list and every assignment of gateway outcomes
with at least one failure: the `Promise.all` join fails as a whole, every
listed send is attempted exactly once (the attempted list is exactly the
input, with multiplicities — no retries, no cancellation), and the sends
whose own outcome succeeded are delivered and not undone. -/
theorem c5_dispatch_partial_failure (gw : Send → Bool) (sends : List Send)
    (h : ∃ s ∈ sends, gw s = false) :
    (∃ e, (dispatch gw sends).2 = .error e)
    ∧ (dispatch gw sends).1 = sends
    ∧ (∀ s, (dispatch gw sends).1.count s = sends.count s)
    ∧ (∀ s ∈ sends, gw s = true → s ∈ delivered gw sends)
    ∧ delivered gw sends = sends.filter gw := by
  refine ⟨promiseAll_map_error h, rfl, fun s => rfl, ?_, rfl⟩
  intro s hs hgs
  exact List.mem_filter.mpr ⟨hs, hgs⟩

/-- Witness for C5: three recipients, the middle send fails, the aggregate
rejects. -/
theorem c5_witness :
    ∃ e, (dispatch (fun s => s.1 != "+1B")
        [("+1A", "m"), ("+1B", "m"), ("+1C", "m")]).2 = Except.error e :=
  (c5_dispatch_partial_failure _ _ ⟨("+1B", "m"), by decide, by decide⟩).1

/-! ## Claim C6: updateUserRoles -/

/-- **C6.** `updateUserRoles` on a phone with zero matching records fails
with the `No user found` error and leaves the directory unchanged (the
throw precedes any batch commit); on a phone with at least one matching
record it commits once, replacing the role set of every matching record
identically and leaving every other record untouched (`List.Forall₂`
relates the old and new directory position by position, so no record is
added, dropped or reordered by the commit). -/
theorem c6_updateUserRoles_spec (db : List User) (phone : String) (roles : List Role) :
    ((∀ u ∈ db, u.phoneNumber ≠ phone) →
      updateUserRoles db phone roles
          = .error ("No user found with phone number " ++ phone)
      ∧ updateUserRolesState db phone roles = db)
    ∧ (∀ v ∈ db, v.phoneNumber = phone →
      ∃ db2, updateUserRoles db phone roles = .ok db2
        ∧ updateUserRolesState db phone roles = db2
        ∧ List.Forall₂ (fun u w =>
            w.name = u.name ∧ w.phoneNumber = u.phoneNumber
              ∧ w.roles = if u.phoneNumber = phone then roles else u.roles)
            db db2) := by
  constructor
  · intro hall
    have hfil : db.filter (fun u => u.phoneNumber == phone) = [] := by
      rw [List.filter_eq_nil_iff]
      intro u hu
      simpa using hall u hu
    have herr : updateUserRoles db phone roles
        = .error ("No user found with phone number " ++ phone) := by
      simp [updateUserRoles, hfil]
    exact ⟨herr, by simp [updateUserRolesState, herr]⟩
  · intro v hv hvp
    have hfil : (db.filter (fun u => u.phoneNumber == phone)).isEmpty = false := by
      have hvmem : v ∈ db.filter (fun u => u.phoneNumber == phone) :=
        List.mem_filter.mpr ⟨hv, by simpa using hvp⟩
      cases hfe : db.filter (fun u => u.phoneNumber == phone) with
      | nil => rw [hfe] at hvmem; cases hvmem
      | cons a l => simp [List.isEmpty]
    have hok : updateUserRoles db phone roles
        = .ok (db.map (fun u =>
            if u.phoneNumber == phone then { u with roles := roles } else u)) := by
      simp [updateUserRoles, hfil]
    refine ⟨_, hok, by simp [updateUserRolesState, hok], ?_⟩
    rw [List.forall₂_map_right_iff, List.forall₂_same]
    intro u _
    by_cases h : u.phoneNumber = phone <;> simp [h]

/-- Witness for C6: both arms at concrete directories.  Updating `+1X` in
a directory without it fails and changes nothing; updating `+1B` in the
scenario directory succeeds. -/
theorem c6_witness :
    (updateUserRoles [⟨"Alice", "+1A", [Role.SUPERVISOR]⟩] "+1X" [Role.STAFF]
        = .error "No user found with phone number +1X"
      ∧ updateUserRolesState [⟨"Alice", "+1A", [Role.SUPERVISOR]⟩] "+1X" [Role.STAFF]
          = [⟨"Alice", "+1A", [Role.SUPERVISOR]⟩])
    ∧ ∃ db2 : List User,
        updateUserRoles
            [⟨"Alice", "+1A", [Role.SUPERVISOR]⟩, ⟨"Bob", "+1B", [Role.SUBSCRIBER]⟩]
            "+1B" [Role.STAFF] = .ok db2
        ∧ updateUserRolesState
            [⟨"Alice", "+1A", [Role.SUPERVISOR]⟩, ⟨"Bob", "+1B", [Role.SUBSCRIBER]⟩]
            "+1B" [Role.STAFF] = db2
        ∧ List.Forall₂ (fun (u w : User) =>
            w.name = u.name ∧ w.phoneNumber = u.phoneNumber
              ∧ w.roles = if u.phoneNumber = "+1B" then [Role.STAFF] else u.roles)
            [⟨"Alice", "+1A", [Role.SUPERVISOR]⟩, ⟨"Bob", "+1B", [Role.SUBSCRIBER]⟩]
            db2 :=
  ⟨(c6_updateUserRoles_spec [⟨"Alice", "+1A", [Role.SUPERVISOR]⟩] "+1X" [Role.STAFF]).1
      (by decide),
   (c6_updateUserRoles_spec
        [⟨"Alice", "+1A", [Role.SUPERVISOR]⟩, ⟨"Bob", "+1B", [Role.SUBSCRIBER]⟩]
        "+1B" [Role.STAFF]).2
      ⟨"Bob", "+1B", [Role.SUBSCRIBER]⟩ (by decide) (by decide)⟩

/-! ## Claim C7: the delete handler on an absent phone -/

/-- **C7 fails as stated**: the delete handlers are *not* error-free on
absence.  Deleting `+1X`, which matches no contact, answers 404
`User not found`, not the success result. -/
theorem c7_counterexample :
    (deleteUserFunction [⟨"Alice", "+1A", [Role.SUPERVISOR]⟩] "+1X").1
        = DeleteResult.notFound
    ∧ DeleteResult.notFound ≠ DeleteResult.deleted := by decide

/-- **C7 (amended).** For every phone number with no matching contact, a
delete request answers 404 `User not found` (an error, not the success
result) and leaves the directory unchanged.  (The underlying `removeUser`
store operation is itself a no-op success on absence — see C8 — but the
produced HTTP interface pre-checks existence and rejects.) -/
theorem c7_deleteUser_absent_notFound (db : List User) (phone : String)
    (hp : phone ≠ "") (h : getUserByPhoneNumber db phone = none) :
    deleteUserFunction db phone = (DeleteResult.notFound, db) := by
  simp [deleteUserFunction, hp, h]

/-- Witness for the amended C7. -/
theorem c7_witness :
    deleteUserFunction [⟨"Alice", "+1A", [Role.SUPERVISOR]⟩] "+1X"
        = (DeleteResult.notFound, [⟨"Alice", "+1A", [Role.SUPERVISOR]⟩]) :=
  c7_deleteUser_absent_notFound _ "+1X" (by decide) (by decide)

/-! ## Claim C8: removeUser -/

/-- **C8.** `removeUser` deletes every record matching the phone (none
survives), keeps every non-matching record, succeeds as a no-op on a phone
with no matching records, and is idempotent: a second call leaves the
directory exactly as the first left it. -/
theorem c8_removeUser_spec (db : List User) (phone : String) :
    (∀ u ∈ removeUser db phone, u.phoneNumber ≠ phone)
    ∧ (∀ u ∈ db, u.phoneNumber ≠ phone → u ∈ removeUser db phone)
    ∧ ((∀ u ∈ db, u.phoneNumber ≠ phone) → removeUser db phone = db)
    ∧ removeUser (removeUser db phone) phone = removeUser db phone := by
  have h1 : ∀ u ∈ removeUser db phone, u.phoneNumber ≠ phone := by
    intro u hu
    have := (List.mem_filter.mp hu).2
    simpa using this
  refine ⟨h1, ?_, ?_, ?_⟩
  · intro u hu hne
    exact List.mem_filter.mpr ⟨hu, by simpa using hne⟩
  · intro hall
    apply List.filter_eq_self.mpr
    intro u hu
    simpa using hall u hu
  · apply List.filter_eq_self.mpr
    intro u hu
    simpa using h1 u hu

/-- Witness for C8: removing an absent phone from the scenario directory
is a no-op. -/
theorem c8_witness :
    removeUser [⟨"Alice", "+1A", [Role.SUPERVISOR]⟩] "+1X"
        = [⟨"Alice", "+1A", [Role.SUPERVISOR]⟩] :=
  (c8_removeUser_spec _ "+1X").2.2.1 (by decide)

/-! ## Claim C9: invalid role tokens are rejected before the store -/

/-- **C9.** For every add or update request whose role token list contains
a token outside `Object.values(Role)`, the handler answers 400 (a
validation error — either the `Invalid role` message or, when a required
field is also missing, the missing-fields message, both before any store
operation) and the directory is unchanged: nothing is inserted and no role
set is modified. -/
theorem c9_invalidRole_rejected (db : List User) (nm phoneNumber : String)
    (roleTokens : List String)
    (h : ∃ t ∈ roleTokens, t ∉ roleValues) :
    ((addUserFunction db nm phoneNumber roleTokens).2 = db
      ∧ ∃ m, (addUserFunction db nm phoneNumber roleTokens).1 = ApiResult.badRequest m)
    ∧ ((updateUserFunction db phoneNumber roleTokens).2 = db
      ∧ ∃ m, (updateUserFunction db phoneNumber roleTokens).1 = ApiResult.badRequest m) := by
  have hfind : ∃ r, roleTokens.find? (fun r => !roleValues.contains r) = some r := by
    rcases h with ⟨t, ht, hnv⟩
    cases hf : roleTokens.find? (fun r => !roleValues.contains r) with
    | some r => exact ⟨r, rfl⟩
    | none =>
        exfalso
        have := List.find?_eq_none.mp hf t ht
        simp [List.elem_iff] at this
        exact hnv this
  rcases hfind with ⟨r, hr⟩
  constructor
  · cases hn : (nm == "" || phoneNumber == "") with
    | true =>
        refine ⟨?_, "Name, phone number, and roles are required", ?_⟩ <;>
          simp [addUserFunction, hn]
    | false =>
        refine ⟨?_, "Invalid role: " ++ r, ?_⟩ <;>
        · simp only [addUserFunction, hn, hr]
          simp
  · cases hn : (phoneNumber == "") with
    | true =>
        refine ⟨?_, "Phone number is required", ?_⟩ <;>
          simp [updateUserFunction, hn]
    | false =>
        refine ⟨?_, "Invalid role: " ++ r, ?_⟩ <;>
        · simp only [updateUserFunction, hn, hr]
          simp

/-- Witness for C9: a request carrying the unrecognized token `ADMIN`
(the model's `Role` enumeration has no such member) is rejected by both
handlers and the directory is untouched. -/
theorem c9_witness :
    ((addUserFunction [⟨"Alice", "+1A", [Role.SUPERVISOR]⟩] "Dave" "+1D"
        ["ADMIN", "SUBSCRIBER"]).2 = [⟨"Alice", "+1A", [Role.SUPERVISOR]⟩]
      ∧ ∃ m, (addUserFunction [⟨"Alice", "+1A", [Role.SUPERVISOR]⟩] "Dave" "+1D"
          ["ADMIN", "SUBSCRIBER"]).1 = ApiResult.badRequest m)
    ∧ ((updateUserFunction [⟨"Alice", "+1A", [Role.SUPERVISOR]⟩] "+1D"
        ["ADMIN", "SUBSCRIBER"]).2 = [⟨"Alice", "+1A", [Role.SUPERVISOR]⟩]
      ∧ ∃ m, (updateUserFunction [⟨"Alice", "+1A", [Role.SUPERVISOR]⟩] "+1D"
          ["ADMIN", "SUBSCRIBER"]).1 = ApiResult.badRequest m) :=
  c9_invalidRole_rejected _ "Dave" "+1D" ["ADMIN", "SUBSCRIBER"]
    ⟨"ADMIN", by decide, by decide⟩

/-! ## Claim C10: outbound text formatting -/

/-- The escalation text is never the raw inbound body: its prefix
`Message from …:\n` is non-empty. -/
theorem escalationText_ne_body (frm body : String) :
    escalationText frm body ≠ body := by
  intro hcontra
  have hlen := congrArg String.length hcontra
  rw [escalationText, String.length_append, String.length_append,
    String.length_append] at hlen
  have h13 : ("Message from " : String).length = 13 := rfl
  have h2 : (":\n" : String).length = 2 := rfl
  omega

/-- The broadcast text is never the raw inbound body: its prefix
`Broadcast from …:\n` is non-empty. -/
theorem broadcastText_ne_body (nm body : String) :
    broadcastText nm body ≠ body := by
  intro hcontra
  have hlen := congrArg String.length hcontra
  rw [broadcastText, String.length_append, String.length_append,
    String.length_append] at hlen
  have h15 : ("Broadcast from " : String).length = 15 := rfl
  have h2 : (":\n" : String).length = 2 := rfl
  omega

/-- **C10.** No recipient ever receives the raw inbound body: every
escalation send carries exactly `Message from <fromNumber>:` followed by a
newline and the message, every broadcast send carries exactly
`Broadcast from <senderName>:` followed by a newline and the message, and
neither text ever equals the raw body.  `senderName` is the sender's
directory name when the phone number resolves to a contact and the raw
phone number otherwise. -/
theorem c10_outbound_text_format (db : List User) (frm body : String) :
    (∀ s ∈ forwardMessageToAdmins db frm body,
        s.2 = escalationText frm body ∧ s.2 ≠ body)
    ∧ (∀ s ∈ broadcastMessage db frm body,
        s.2 = broadcastText (senderName db frm) body ∧ s.2 ≠ body)
    ∧ (∀ u, getUserByPhoneNumber db frm = some u → senderName db frm = u.name)
    ∧ (getUserByPhoneNumber db frm = none → senderName db frm = frm) := by
  refine ⟨?_, ?_, ?_, ?_⟩
  · intro s hs
    rcases mem_forwardMessageToAdmins.mp hs with ⟨c, _, _, rfl⟩
    exact ⟨rfl, escalationText_ne_body frm body⟩
  · intro s hs
    rcases mem_broadcastMessage.mp hs with ⟨c, _, _, _, rfl⟩
    exact ⟨rfl, broadcastText_ne_body (senderName db frm) body⟩
  · intro u hu
    simp [senderName, hu]
  · intro hu
    simp [senderName, hu]

/-- Witness for C10: the escalation of `spam` from the unknown number
`+1X` reaches the admin as the formatted text, not as the raw body. -/
theorem c10_witness :
    ("+1A", escalationText "+1X" "spam").2 = escalationText "+1X" "spam"
    ∧ ("+1A", escalationText "+1X" "spam").2 ≠ "spam" :=
  (c10_outbound_text_format [⟨"Alice", "+1A", [Role.SUPERVISOR]⟩] "+1X" "spam").1
    ("+1A", escalationText "+1X" "spam") (by decide)

end Mtas
